import Mathlib

/-!
Verification of the time-shift ring buffer (`TimeShiftBuffer`, src/audio_buffer.py)
of the RadioShift repository.

The Python class is shallowly embedded: Python machine integers are unbounded, so
they are modelled as `Int`; Python's `%` on a positive modulus agrees with `Int.emod`;
the `np.int16` sample storage `self.buffer` (shape `(buffer_size, channels)`) is a
`List (List Int)` of frames.  Methods that can raise in Python (`np.zeros` on a
negative dimension, numpy broadcast mismatches on slice assignment) return `Option`.
The `threading.RLock` serialises the methods; each method is therefore modelled as an
atomic state transformer.
-/

set_option maxHeartbeats 1000000

/-- State of a `TimeShiftBuffer` object: one field per Python instance attribute
(`self.lock` excepted, see the module comment). -/
structure TimeShiftBuffer where
  sample_rate : Int
  channels : Int
  buffer_size : Int
  buffer : List (List Int)
  write_pos : Int
  read_pos : Int
  live_delay_frames : Int
  stored_frames : Int
  playback_paused : Bool
  pause_position : Option Int
  time_shift : Int
  cumulative_shift : Int
  past_frames : Int
  future_frames : Int
deriving DecidableEq

/-- Overwrite the slice of `l` starting at index `i` with `v`
(numpy `l[i:i+len(v)] = v`); meaningful when `i + v.length ≤ l.length`. -/
def listOverwrite (l : List (List Int)) (i : Nat) (v : List (List Int)) :
    List (List Int) :=
  l.take i ++ v ++ l.drop (i + v.length)

/-- `TimeShiftBuffer.__init__(past_seconds, future_seconds, sample_rate, channels)`.
Returns `none` exactly when `np.zeros` raises on a negative dimension (negative
computed `buffer_size`, or negative `channels`); the constructor performs no other
validation.  `int(0.1 * sample_rate)` is embedded as `sample_rate / 10`: for the
nonnegative sample rates of interest the float product truncates to this value. -/
def TimeShiftBuffer.init (past_seconds future_seconds sample_rate channels : Int) :
    Option TimeShiftBuffer :=
  if (past_seconds + future_seconds) * sample_rate < 0 ∨ channels < 0 then none
  else some {
    sample_rate := sample_rate
    channels := channels
    buffer_size := (past_seconds + future_seconds) * sample_rate
    buffer := List.replicate ((past_seconds + future_seconds) * sample_rate).toNat
      (List.replicate channels.toNat 0)
    write_pos := 0
    read_pos := 0
    live_delay_frames := sample_rate / 10
    stored_frames := 0
    playback_paused := false
    pause_position := none
    time_shift := 0
    cumulative_shift := 0
    past_frames := past_seconds * sample_rate
    future_frames := future_seconds * sample_rate }

/-- Shared tail of `write` (source lines 42-45): saturating update of
`stored_frames` is performed by the caller; this models the conditional
recomputation of `read_pos` from the already-updated `write_pos`. -/
def TimeShiftBuffer.writeFinish (s : TimeShiftBuffer) : TimeShiftBuffer :=
  if s.playback_paused = false ∧ s.pause_position = none then
    { s with read_pos :=
        (s.write_pos - s.live_delay_frames - s.time_shift) % s.buffer_size }
  else s

/-- `TimeShiftBuffer.write(data)` (source lines 29-45).  The wrap branch raises a
numpy broadcast error (`none`) when the second slice `data[first_part:]` is longer
than the whole buffer. -/
def TimeShiftBuffer.write (s : TimeShiftBuffer) (data : List (List Int)) :
    Option TimeShiftBuffer :=
  if s.write_pos + (data.length : Int) > s.buffer_size then
    if (data.length : Int) - (s.buffer_size - s.write_pos) > s.buffer_size then none
    else some (TimeShiftBuffer.writeFinish { s with
      buffer := listOverwrite
        (listOverwrite s.buffer s.write_pos.toNat
          (data.take (s.buffer_size - s.write_pos).toNat))
        0 (data.drop (s.buffer_size - s.write_pos).toNat)
      write_pos := (data.length : Int) - (s.buffer_size - s.write_pos)
      stored_frames := min (s.stored_frames + (data.length : Int)) s.buffer_size })
  else
    some (TimeShiftBuffer.writeFinish { s with
      buffer := listOverwrite s.buffer s.write_pos.toNat data
      write_pos := (s.write_pos + (data.length : Int)) % s.buffer_size
      stored_frames := min (s.stored_frames + (data.length : Int)) s.buffer_size })

/-- `TimeShiftBuffer.read(frames)` (source lines 47-63).  `np.zeros((frames, ...))`
raises on negative `frames` (`none`); the wrap branch raises a broadcast error when
`buffer[:frames-first_part]` is shorter than its target slice. -/
def TimeShiftBuffer.read (s : TimeShiftBuffer) (frames : Int) :
    Option (List (List Int) × TimeShiftBuffer) :=
  if frames < 0 then none
  else if s.playback_paused then
    some (List.replicate frames.toNat (List.replicate s.channels.toNat 0), s)
  else if s.read_pos + frames > s.buffer_size then
    if frames - (s.buffer_size - s.read_pos) > s.buffer_size then none
    else some (s.buffer.drop s.read_pos.toNat
        ++ s.buffer.take (frames - (s.buffer_size - s.read_pos)).toNat,
      { s with read_pos := (s.read_pos + frames) % s.buffer_size })
  else
    some ((s.buffer.drop s.read_pos.toNat).take frames.toNat,
      { s with read_pos := (s.read_pos + frames) % s.buffer_size })

/-- `TimeShiftBuffer.reset_to_live()` (source lines 65-71). -/
def TimeShiftBuffer.reset_to_live (s : TimeShiftBuffer) : TimeShiftBuffer :=
  { s with time_shift := 0, cumulative_shift := 0, playback_paused := false,
           pause_position := none,
           read_pos := (s.write_pos - s.live_delay_frames) % s.buffer_size }

/-- `TimeShiftBuffer.pause()` (source lines 73-76). -/
def TimeShiftBuffer.pause (s : TimeShiftBuffer) : TimeShiftBuffer :=
  { s with playback_paused := true,
           pause_position :=
             some ((s.write_pos - s.live_delay_frames - s.time_shift) % s.buffer_size) }

/-- `TimeShiftBuffer.resume()` (source lines 78-86). -/
def TimeShiftBuffer.resume (s : TimeShiftBuffer) : TimeShiftBuffer :=
  match s.pause_position with
  | some pp =>
      { s with read_pos := pp,
               time_shift := (s.write_pos - pp) % s.buffer_size,
               cumulative_shift := (s.write_pos - pp) % s.buffer_size,
               playback_paused := false,
               pause_position := none }
  | none => { s with playback_paused := false, pause_position := none }

/-- `TimeShiftBuffer.move_backward(frames)` (source lines 88-95). -/
def TimeShiftBuffer.move_backward (s : TimeShiftBuffer) (frames : Int) :
    TimeShiftBuffer :=
  let shift := min (min s.stored_frames s.past_frames) (s.time_shift + frames)
  let s1 := { s with time_shift := shift, cumulative_shift := shift }
  if s1.playback_paused = false then
    { s1 with read_pos :=
        (s1.write_pos - s1.live_delay_frames - s1.time_shift) % s1.buffer_size }
  else s1

/-- `TimeShiftBuffer.move_forward(frames)` (source lines 97-103). -/
def TimeShiftBuffer.move_forward (s : TimeShiftBuffer) (frames : Int) :
    TimeShiftBuffer :=
  let shift := max 0 (s.time_shift - frames)
  let s1 := { s with time_shift := shift, cumulative_shift := shift }
  if s1.playback_paused = false then
    { s1 with read_pos :=
        (s1.write_pos - s1.live_delay_frames - s1.time_shift) % s1.buffer_size }
  else s1

/-- `TimeShiftBuffer.is_live()` (source lines 105-107). -/
def TimeShiftBuffer.is_live (s : TimeShiftBuffer) : Bool :=
  s.time_shift == 0 && !s.playback_paused

/-- `TimeShiftBuffer.get_delayed_time()` (source lines 125-127); Python float
division is modelled as exact rational division. -/
def TimeShiftBuffer.get_delayed_time (s : TimeShiftBuffer) : ℚ :=
  (s.cumulative_shift : ℚ) / (s.sample_rate : ℚ)

/-- A sequence of `write` calls, one per chunk, left to right. -/
def TimeShiftBuffer.writeMany : TimeShiftBuffer → List (List (List Int)) →
    Option TimeShiftBuffer
  | s, [] => some s
  | s, c :: rest =>
    match s.write c with
    | none => none
    | some s1 => s1.writeMany rest

/-- Total frame count of a list of write chunks. -/
def totalFrames (chunks : List (List (List Int))) : Int :=
  (chunks.map (fun c => (c.length : Int))).sum

/-- States reachable from a constructed buffer by the public operations.  Seek
amounts and read counts are frame counts, hence nonnegative; fallible operations
contribute a step only when they succeed (when Python does not raise). -/
inductive Reachable : TimeShiftBuffer → Prop where
  | init (p f sr ch : Int) (s : TimeShiftBuffer) :
      TimeShiftBuffer.init p f sr ch = some s → Reachable s
  | write (s : TimeShiftBuffer) (data : List (List Int)) (s' : TimeShiftBuffer) :
      Reachable s → s.write data = some s' → Reachable s'
  | read (s : TimeShiftBuffer) (n : Int) (out : List (List Int))
      (s' : TimeShiftBuffer) :
      Reachable s → s.read n = some (out, s') → Reachable s'
  | pause (s : TimeShiftBuffer) : Reachable s → Reachable s.pause
  | resume (s : TimeShiftBuffer) : Reachable s → Reachable s.resume
  | reset (s : TimeShiftBuffer) : Reachable s → Reachable s.reset_to_live
  | back (s : TimeShiftBuffer) (k : Int) :
      Reachable s → 0 ≤ k → Reachable (s.move_backward k)
  | fwd (s : TimeShiftBuffer) (k : Int) :
      Reachable s → 0 ≤ k → Reachable (s.move_forward k)

/-- The state produced by `TimeShiftBuffer(1, 1, 10, 1)`: capacity 20 frames,
live delay 1 frame, past capacity 10 frames. -/
def smallBuf : TimeShiftBuffer :=
  { sample_rate := 10
    channels := 1
    buffer_size := 20
    buffer := List.replicate 20 (List.replicate 1 0)
    write_pos := 0
    read_pos := 0
    live_delay_frames := 1
    stored_frames := 0
    playback_paused := false
    pause_position := none
    time_shift := 0
    cumulative_shift := 0
    past_frames := 10
    future_frames := 10 }

theorem smallBuf_init : TimeShiftBuffer.init 1 1 10 1 = some smallBuf := by decide

/-! ### Helper lemmas about single operations -/

theorem writeFinish_spec (s : TimeShiftBuffer) :
    s.writeFinish = { s with read_pos :=
      if s.playback_paused = false ∧ s.pause_position = none
      then (s.write_pos - s.live_delay_frames - s.time_shift) % s.buffer_size
      else s.read_pos } := by
  unfold TimeShiftBuffer.writeFinish
  split
  case isTrue h => rfl
  case isFalse h => rfl

theorem write_spec (s : TimeShiftBuffer) (data : List (List Int))
    (hN : 0 < s.buffer_size) (hw0 : 0 ≤ s.write_pos) (hw : s.write_pos < s.buffer_size)
    (hlen : (data.length : Int) ≤ s.buffer_size) :
    ∃ s', s.write data = some s' ∧
      s'.write_pos = (s.write_pos + (data.length : Int)) % s.buffer_size ∧
      s'.stored_frames = min (s.stored_frames + (data.length : Int)) s.buffer_size ∧
      s'.read_pos = (if s.playback_paused = false ∧ s.pause_position = none
          then ((s.write_pos + (data.length : Int)) % s.buffer_size
                 - s.live_delay_frames - s.time_shift) % s.buffer_size
          else s.read_pos) ∧
      s'.time_shift = s.time_shift ∧
      s'.cumulative_shift = s.cumulative_shift ∧
      s'.playback_paused = s.playback_paused ∧
      s'.pause_position = s.pause_position ∧
      s'.buffer_size = s.buffer_size ∧
      s'.live_delay_frames = s.live_delay_frames ∧
      s'.sample_rate = s.sample_rate ∧
      s'.past_frames = s.past_frames ∧
      s'.channels = s.channels := by
  unfold TimeShiftBuffer.write
  by_cases hwrap : s.write_pos + (data.length : Int) > s.buffer_size
  · have hmod : (s.write_pos + (data.length : Int)) % s.buffer_size
        = (data.length : Int) - (s.buffer_size - s.write_pos) := by
      have e1 : s.write_pos + (data.length : Int)
          = (s.write_pos + (data.length : Int) - s.buffer_size) + s.buffer_size * 1 := by
        ring
      rw [e1, Int.add_mul_emod_self_left,
        Int.emod_eq_of_lt (by omega) (by omega)]
      omega
    rw [if_pos hwrap, if_neg (by omega)]
    refine ⟨_, rfl, ?_⟩
    rw [writeFinish_spec]
    simp only [hmod]
    and_intros <;> trivial
  · rw [if_neg hwrap]
    refine ⟨_, rfl, ?_⟩
    rw [writeFinish_spec]
    and_intros <;> trivial

theorem write_fields {s s' : TimeShiftBuffer} {data : List (List Int)}
    (h : s.write data = some s') :
    s'.stored_frames = min (s.stored_frames + (data.length : Int)) s.buffer_size ∧
    s'.time_shift = s.time_shift ∧
    s'.cumulative_shift = s.cumulative_shift ∧
    s'.playback_paused = s.playback_paused ∧
    s'.pause_position = s.pause_position ∧
    s'.buffer_size = s.buffer_size ∧
    s'.live_delay_frames = s.live_delay_frames ∧
    s'.sample_rate = s.sample_rate ∧
    s'.past_frames = s.past_frames ∧
    s'.channels = s.channels := by
  unfold TimeShiftBuffer.write at h
  split at h
  · split at h
    · exact absurd h (by simp)
    · rw [Option.some_inj] at h
      subst h
      rw [writeFinish_spec]
      and_intros <;> trivial
  · rw [Option.some_inj] at h
    subst h
    rw [writeFinish_spec]
    and_intros <;> trivial

theorem read_fields {s s' : TimeShiftBuffer} {n : Int} {out : List (List Int)}
    (h : s.read n = some (out, s')) :
    s'.buffer = s.buffer ∧
    s'.write_pos = s.write_pos ∧
    s'.stored_frames = s.stored_frames ∧
    s'.time_shift = s.time_shift ∧
    s'.cumulative_shift = s.cumulative_shift ∧
    s'.playback_paused = s.playback_paused ∧
    s'.pause_position = s.pause_position ∧
    s'.buffer_size = s.buffer_size ∧
    s'.live_delay_frames = s.live_delay_frames ∧
    s'.sample_rate = s.sample_rate ∧
    s'.past_frames = s.past_frames ∧
    s'.channels = s.channels := by
  unfold TimeShiftBuffer.read at h
  split at h
  · exact absurd h (by simp)
  · split at h
    · rw [Option.some_inj, Prod.mk.injEq] at h
      rw [← h.2]
      and_intros <;> trivial
    · split at h
      · split at h
        · exact absurd h (by simp)
        · rw [Option.some_inj, Prod.mk.injEq] at h
          rw [← h.2]
          and_intros <;> trivial
      · rw [Option.some_inj, Prod.mk.injEq] at h
        rw [← h.2]
        and_intros <;> trivial

theorem move_backward_fields (s : TimeShiftBuffer) (k : Int) :
    (s.move_backward k).time_shift
      = min (min s.stored_frames s.past_frames) (s.time_shift + k) ∧
    (s.move_backward k).cumulative_shift
      = min (min s.stored_frames s.past_frames) (s.time_shift + k) ∧
    (s.move_backward k).stored_frames = s.stored_frames ∧
    (s.move_backward k).write_pos = s.write_pos ∧
    (s.move_backward k).playback_paused = s.playback_paused ∧
    (s.move_backward k).pause_position = s.pause_position ∧
    (s.move_backward k).buffer_size = s.buffer_size ∧
    (s.move_backward k).live_delay_frames = s.live_delay_frames ∧
    (s.move_backward k).sample_rate = s.sample_rate ∧
    (s.move_backward k).past_frames = s.past_frames ∧
    (s.move_backward k).channels = s.channels := by
  simp only [TimeShiftBuffer.move_backward]
  split <;> (and_intros <;> trivial)

theorem move_forward_fields (s : TimeShiftBuffer) (k : Int) :
    (s.move_forward k).time_shift = max 0 (s.time_shift - k) ∧
    (s.move_forward k).cumulative_shift = max 0 (s.time_shift - k) ∧
    (s.move_forward k).stored_frames = s.stored_frames ∧
    (s.move_forward k).write_pos = s.write_pos ∧
    (s.move_forward k).playback_paused = s.playback_paused ∧
    (s.move_forward k).pause_position = s.pause_position ∧
    (s.move_forward k).buffer_size = s.buffer_size ∧
    (s.move_forward k).live_delay_frames = s.live_delay_frames ∧
    (s.move_forward k).sample_rate = s.sample_rate ∧
    (s.move_forward k).past_frames = s.past_frames ∧
    (s.move_forward k).channels = s.channels := by
  simp only [TimeShiftBuffer.move_forward]
  split <;> (and_intros <;> trivial)

theorem resume_none (s : TimeShiftBuffer) (h : s.pause_position = none) :
    s.resume = { s with playback_paused := false, pause_position := none } := by
  unfold TimeShiftBuffer.resume
  rw [h]

theorem resume_some (s : TimeShiftBuffer) (pp : Int) (h : s.pause_position = some pp) :
    s.resume = { s with read_pos := pp,
                        time_shift := (s.write_pos - pp) % s.buffer_size,
                        cumulative_shift := (s.write_pos - pp) % s.buffer_size,
                        playback_paused := false,
                        pause_position := none } := by
  unfold TimeShiftBuffer.resume
  rw [h]

theorem reachable_cumulative {s : TimeShiftBuffer} (hr : Reachable s) :
    s.cumulative_shift = s.time_shift := by
  induction hr with
  | init p f sr ch s h =>
      unfold TimeShiftBuffer.init at h
      split at h
      · exact absurd h (by simp)
      · rw [Option.some_inj] at h
        subst h
        rfl
  | write s data s' _ hstep ih =>
      obtain ⟨_, ht, hc, _⟩ := write_fields hstep
      rw [hc, ht]
      exact ih
  | read s n out s' _ hstep ih =>
      obtain ⟨_, _, _, ht, hc, _⟩ := read_fields hstep
      rw [hc, ht]
      exact ih
  | pause s _ ih => exact ih
  | resume s _ ih =>
      cases hp : s.pause_position with
      | none =>
          rw [resume_none s hp]
          exact ih
      | some pp =>
          rw [resume_some s pp hp]
  | reset s _ ih => rfl
  | back s k _ hk ih =>
      obtain ⟨ht, hc, _⟩ := move_backward_fields s k
      rw [hc, ht]
  | fwd s k _ hk ih =>
      obtain ⟨ht, hc, _⟩ := move_forward_fields s k
      rw [hc, ht]

theorem reachable_bounds {s : TimeShiftBuffer} (hr : Reachable s) :
    0 < s.buffer_size → 0 ≤ s.past_frames → s.past_frames < s.buffer_size →
    0 ≤ s.stored_frames ∧ s.stored_frames ≤ s.buffer_size ∧
    0 ≤ s.time_shift ∧ s.time_shift < s.buffer_size := by
  induction hr with
  | init p f sr ch s h =>
      intro hN _ _
      unfold TimeShiftBuffer.init at h
      split at h
      · exact absurd h (by simp)
      · rw [Option.some_inj] at h
        subst h
        exact ⟨le_refl 0, le_of_lt hN, le_refl 0, hN⟩
  | write s data s' _ hstep ih =>
      intro hN hp0 hpN
      obtain ⟨hst, ht, _, _, _, hbs, _, _, hpf, _⟩ := write_fields hstep
      rw [hbs] at hN
      rw [hpf] at hp0
      rw [hpf, hbs] at hpN
      obtain ⟨h1, h2, h3, h4⟩ := ih hN hp0 hpN
      rw [hst, ht, hbs]
      have hd : (0 : Int) ≤ (data.length : Int) := Int.natCast_nonneg _
      omega
  | read s n out s' _ hstep ih =>
      intro hN hp0 hpN
      obtain ⟨_, _, hst, ht, _, _, _, hbs, _, _, hpf, _⟩ := read_fields hstep
      rw [hbs] at hN
      rw [hpf] at hp0
      rw [hpf, hbs] at hpN
      rw [hst, ht, hbs]
      exact ih hN hp0 hpN
  | pause s _ ih => exact ih
  | resume s _ ih =>
      intro hN hp0 hpN
      cases hp : s.pause_position with
      | none =>
          rw [resume_none s hp] at hN hp0 hpN ⊢
          exact ih hN hp0 hpN
      | some pp =>
          rw [resume_some s pp hp] at hN hp0 hpN ⊢
          obtain ⟨h1, h2, h3, h4⟩ := ih hN hp0 hpN
          exact ⟨h1, h2, Int.emod_nonneg _ (by omega), Int.emod_lt_of_pos _ hN⟩
  | reset s _ ih =>
      intro hN hp0 hpN
      obtain ⟨h1, h2, h3, h4⟩ := ih hN hp0 hpN
      exact ⟨h1, h2, le_refl 0, hN⟩
  | back s k _ hk ih =>
      intro hN hp0 hpN
      obtain ⟨ht, hc, hst, _, _, _, hbs, _, _, hpf, _⟩ := move_backward_fields s k
      rw [hbs] at hN
      rw [hpf] at hp0
      rw [hpf, hbs] at hpN
      obtain ⟨h1, h2, h3, h4⟩ := ih hN hp0 hpN
      rw [ht, hst, hbs]
      omega
  | fwd s k _ hk ih =>
      intro hN hp0 hpN
      obtain ⟨ht, hc, hst, _, _, _, hbs, _, _, hpf, _⟩ := move_forward_fields s k
      rw [hbs] at hN
      rw [hpf] at hp0
      rw [hpf, hbs] at hpN
      obtain ⟨h1, h2, h3, h4⟩ := ih hN hp0 hpN
      rw [ht, hst, hbs]
      omega

theorem emod_add_left_arg (a b N : Int) : (a % N + b) % N = (a + b) % N := by
  conv_lhs => rw [Int.add_emod]
  rw [Int.emod_emod_of_dvd a dvd_rfl, ← Int.add_emod]

theorem writeMany_paused (chunks : List (List (List Int))) :
    ∀ (s : TimeShiftBuffer) (pp : Int),
    s.playback_paused = true → s.pause_position = some pp →
    0 < s.buffer_size → 0 ≤ s.write_pos → s.write_pos < s.buffer_size →
    (∀ c ∈ chunks, (c.length : Int) ≤ s.buffer_size) →
    ∃ s', s.writeMany chunks = some s' ∧
      s'.write_pos = (s.write_pos + totalFrames chunks) % s.buffer_size ∧
      s'.playback_paused = true ∧
      s'.pause_position = some pp ∧
      s'.buffer_size = s.buffer_size ∧
      s'.live_delay_frames = s.live_delay_frames ∧
      s'.time_shift = s.time_shift ∧
      s'.cumulative_shift = s.cumulative_shift ∧
      s'.sample_rate = s.sample_rate := by
  induction chunks with
  | nil =>
      intro s pp hpb hpp hN hw0 hw _
      refine ⟨s, rfl, ?_, hpb, hpp, rfl, rfl, rfl, rfl, rfl⟩
      simp [totalFrames, Int.emod_eq_of_lt hw0 hw]
  | cons c rest ih =>
      intro s pp hpb hpp hN hw0 hw hc
      obtain ⟨s1, hw1, hwp1, hst1, hrp1, ht1, hcu1, hpb1, hpp1, hbs1, hld1, hsr1,
        hpf1, hch1⟩ := write_spec s c hN hw0 hw (hc c (List.mem_cons_self c rest))
      obtain ⟨s', hw', hwp', hpb', hpp', hbs', hld', ht', hcu', hsr'⟩ :=
        ih s1 pp (by rw [hpb1, hpb]) (by rw [hpp1, hpp])
          (by rw [hbs1]; exact hN)
          (by rw [hwp1]; exact Int.emod_nonneg _ (by omega))
          (by rw [hwp1, hbs1]; exact Int.emod_lt_of_pos _ hN)
          (by intro c' hc'; rw [hbs1]; exact hc c' (List.mem_cons_of_mem c hc'))
      refine ⟨s', ?_, ?_, hpb', hpp', by rw [hbs', hbs1], by rw [hld', hld1],
        by rw [ht', ht1], by rw [hcu', hcu1], by rw [hsr', hsr1]⟩
      · show (match s.write c with
          | none => none
          | some s1 => s1.writeMany rest) = some s'
        rw [hw1]
        exact hw'
      · rw [hwp', hwp1, hbs1, emod_add_left_arg]
        have : totalFrames (c :: rest) = (c.length : Int) + totalFrames rest := by
          simp [totalFrames]
        rw [this, add_assoc]

/-- Claim C1 (amended).  For every live or shifted state, `pause()`, then writing W
frames in any number of `write` calls (each of at most N frames), then `resume()`,
leaves `TimeShiftFrames` equal to `(W + LiveDelayFrames + old TimeShiftFrames) mod N`
(not `W mod N`: the pause snapshot already lags live by the live delay plus the
pre-existing shift), and `get_delayed_time()` equal to that frame count divided by
`sampleRate`. -/
theorem C1_pause_write_resume_shift (s : TimeShiftBuffer)
    (chunks : List (List (List Int)))
    (hN : 0 < s.buffer_size) (hw0 : 0 ≤ s.write_pos) (hw : s.write_pos < s.buffer_size)
    (hlive : s.playback_paused = false)
    (hc : ∀ c ∈ chunks, (c.length : Int) ≤ s.buffer_size) :
    ∃ s', s.pause.writeMany chunks = some s' ∧
      s'.resume.time_shift
        = (totalFrames chunks + s.live_delay_frames + s.time_shift) % s.buffer_size ∧
      s'.resume.get_delayed_time
        = (((totalFrames chunks + s.live_delay_frames + s.time_shift)
              % s.buffer_size : Int) : ℚ) / (s.sample_rate : ℚ) := by
  obtain ⟨s', hwm, hwp, hpb, hpp, hbs, hld, ht, hcu, hsr⟩ :=
    writeMany_paused chunks s.pause
      ((s.write_pos - s.live_delay_frames - s.time_shift) % s.buffer_size)
      rfl rfl hN hw0 hw hc
  have hres := resume_some s' _ hpp
  have hts : s'.resume.time_shift
      = (s'.write_pos
          - (s.write_pos - s.live_delay_frames - s.time_shift) % s.buffer_size)
        % s'.buffer_size := by
    rw [hres]
  have hcum : s'.resume.cumulative_shift
      = (s'.write_pos
          - (s.write_pos - s.live_delay_frames - s.time_shift) % s.buffer_size)
        % s'.buffer_size := by
    rw [hres]
  have hsr2 : s'.resume.sample_rate = s'.sample_rate := by
    rw [hres]
  have key : (s'.write_pos
        - (s.write_pos - s.live_delay_frames - s.time_shift) % s.buffer_size)
      % s'.buffer_size
      = (totalFrames chunks + s.live_delay_frames + s.time_shift) % s.buffer_size := by
    rw [hwp, hbs]
    simp only [TimeShiftBuffer.pause]
    rw [← Int.sub_emod]
    congr 1
    ring
  refine ⟨s', hwm, ?_, ?_⟩
  · rw [hts, key]
  · show (s'.resume.cumulative_shift : ℚ) / (s'.resume.sample_rate : ℚ) = _
    rw [hcum, key, hsr2, hsr]
    simp only [TimeShiftBuffer.pause]

/-- Claim C1, counterexample to the claim as stated: on `TimeShiftBuffer(1,1,10,1)`
(N = 20, LiveDelayFrames = 1), `pause()`, one `write` of W = 5 frames, `resume()`
yields `TimeShiftFrames = 6`, while the claim predicts `W mod N = 5`. -/
theorem C1_counterexample :
    (smallBuf.pause.write (List.replicate 5 (List.replicate 1 0))).map
        (fun s1 => s1.resume.time_shift) = some 6 ∧
    (5 : Int) % 20 = 5 ∧ (6 : Int) ≠ 5 := by
  decide

/-- Witness for C1 at `TimeShiftBuffer(1,1,10,1)` with one 5-frame write. -/
theorem C1_pause_write_resume_shift_witness :
    ∃ s', smallBuf.pause.writeMany [List.replicate 5 (List.replicate 1 0)] = some s' ∧
      s'.resume.time_shift
        = (totalFrames [List.replicate 5 (List.replicate 1 0)]
            + smallBuf.live_delay_frames + smallBuf.time_shift) % smallBuf.buffer_size ∧
      s'.resume.get_delayed_time
        = (((totalFrames [List.replicate 5 (List.replicate 1 0)]
              + smallBuf.live_delay_frames + smallBuf.time_shift)
              % smallBuf.buffer_size : Int) : ℚ) / (smallBuf.sample_rate : ℚ) :=
  C1_pause_write_resume_shift smallBuf [List.replicate 5 (List.replicate 1 0)]
    (by decide) (by decide) (by decide) (by decide) (by decide)

/-- Claim C2, counterexample to the claim as stated: from the freshly constructed
`TimeShiftBuffer(1,1,10,1)`, the public-operation sequence `pause(); resume()`
yields `TimeShiftFrames = 1 > 0 = min(StoredFrames, PastCapacityFrames)`: `resume`
does not respect the claimed retained-history bound. -/
theorem C2_counterexample :
    TimeShiftBuffer.init 1 1 10 1 = some smallBuf ∧
    smallBuf.pause.resume.time_shift = 1 ∧
    min smallBuf.pause.resume.stored_frames smallBuf.pause.resume.past_frames = 0 := by
  decide

/-- Claim C2 (amended).  In every state reachable by public operations from a
construction with positive capacity and positive future capacity
(`0 ≤ PastCapacityFrames < N`), `TimeShiftFrames` lies in `[0, N)`; the stricter
bound `min(StoredFrames, PastCapacityFrames)` is not an invariant, because
`resume()` can exceed it (by up to `LiveDelayFrames` plus the frames written while
paused). -/
theorem C2_time_shift_bounds {s : TimeShiftBuffer} (hr : Reachable s)
    (hN : 0 < s.buffer_size) (hp0 : 0 ≤ s.past_frames)
    (hpN : s.past_frames < s.buffer_size) :
    0 ≤ s.time_shift ∧ s.time_shift < s.buffer_size :=
  ⟨(reachable_bounds hr hN hp0 hpN).2.2.1, (reachable_bounds hr hN hp0 hpN).2.2.2⟩

/-- Witness for C2 at the freshly constructed `TimeShiftBuffer(1,1,10,1)`. -/
theorem C2_time_shift_bounds_witness :
    0 ≤ smallBuf.time_shift ∧ smallBuf.time_shift < smallBuf.buffer_size :=
  C2_time_shift_bounds (Reachable.init 1 1 10 1 smallBuf (by decide))
    (by decide) (by decide) (by decide)

/-- A live state of `TimeShiftBuffer(1,1,10,1)` after 5 frames have been written:
its `read_pos` is in derived form `(write_pos - live_delay - time_shift) mod N`. -/
def liveBuf : TimeShiftBuffer :=
  { smallBuf with write_pos := 5, read_pos := 4, stored_frames := 5 }

/-- Claim C3, counterexample to the claim as stated: on `TimeShiftBuffer(1,1,10,1)`,
`read(3)` advances `ReadPosition` to 3; the following `pause()` stores
`PausePosition = 19 = (WritePosition - LiveDelayFrames - TimeShiftFrames) mod N`,
not the current `ReadPosition` 3. -/
theorem C3_counterexample :
    (smallBuf.read 3).map (fun p => (p.2.read_pos, p.2.pause.pause_position))
      = some (3, some 19) ∧ some (19 : Int) ≠ some (3 : Int) := by
  decide

/-- Claim C3 (amended).  `pause()` sets `PlaybackPaused := true` and
`PausePosition := (WritePosition - LiveDelayFrames - TimeShiftFrames) mod N`, the
derived live/shifted position; this equals the current `ReadPosition` whenever
`ReadPosition` is in derived form (as after any unpaused write or control
recomputation), but not in general after `read()` has advanced `ReadPosition`. -/
theorem C3_pause_snapshot (s : TimeShiftBuffer)
    (h : s.read_pos
      = (s.write_pos - s.live_delay_frames - s.time_shift) % s.buffer_size) :
    s.pause.pause_position = some s.read_pos ∧
    s.pause.playback_paused = true ∧
    s.pause.read_pos = s.read_pos ∧
    s.pause.write_pos = s.write_pos ∧
    s.pause.time_shift = s.time_shift := by
  refine ⟨?_, rfl, rfl, rfl, rfl⟩
  show some ((s.write_pos - s.live_delay_frames - s.time_shift) % s.buffer_size)
    = some s.read_pos
  rw [h]

/-- Witness for C3 at a live state with derived read position. -/
theorem C3_pause_snapshot_witness :
    liveBuf.pause.pause_position = some liveBuf.read_pos ∧
    liveBuf.pause.playback_paused = true ∧
    liveBuf.pause.read_pos = liveBuf.read_pos ∧
    liveBuf.pause.write_pos = liveBuf.write_pos ∧
    liveBuf.pause.time_shift = liveBuf.time_shift :=
  C3_pause_snapshot liveBuf (by decide)

/-- Claim C4 (confirmed).  For every state with valid cursor (and the data-model
invariant that `PausePosition` is absent while unpaused) and every nonempty frame
sequence of length at most N, `write` succeeds, advances `WritePosition` by the
length mod N, saturates `StoredFrames` at N, leaves `TimeShiftFrames` unchanged,
and, if not paused, recomputes `ReadPosition` from the new `WritePosition` so the
lag behind live is unchanged. -/
theorem C4_write_updates (s : TimeShiftBuffer) (data : List (List Int))
    (hN : 0 < s.buffer_size) (hw0 : 0 ≤ s.write_pos) (hw : s.write_pos < s.buffer_size)
    (hlen0 : 0 < data.length) (hlen : (data.length : Int) ≤ s.buffer_size)
    (hinv : s.playback_paused = false → s.pause_position = none) :
    ∃ s', s.write data = some s' ∧
      s'.write_pos = (s.write_pos + (data.length : Int)) % s.buffer_size ∧
      s'.stored_frames = min (s.stored_frames + (data.length : Int)) s.buffer_size ∧
      s'.time_shift = s.time_shift ∧
      (s.playback_paused = false →
        s'.read_pos
          = (s'.write_pos - s.live_delay_frames - s.time_shift) % s.buffer_size) := by
  obtain ⟨s', h1, h2, h3, h4, h5, _⟩ := write_spec s data hN hw0 hw hlen
  refine ⟨s', h1, h2, h3, h5, ?_⟩
  intro hp
  rw [h4, if_pos ⟨hp, hinv hp⟩, h2]

/-- Witness for C4: a 5-frame write into the fresh `TimeShiftBuffer(1,1,10,1)`. -/
theorem C4_write_updates_witness :
    ∃ s', smallBuf.write (List.replicate 5 (List.replicate 1 0)) = some s' ∧
      s'.write_pos = (smallBuf.write_pos
        + ((List.replicate 5 (List.replicate 1 (0:Int))).length : Int))
          % smallBuf.buffer_size ∧
      s'.stored_frames = min (smallBuf.stored_frames
        + ((List.replicate 5 (List.replicate 1 (0:Int))).length : Int))
          smallBuf.buffer_size ∧
      s'.time_shift = smallBuf.time_shift ∧
      (smallBuf.playback_paused = false →
        s'.read_pos = (s'.write_pos - smallBuf.live_delay_frames
          - smallBuf.time_shift) % smallBuf.buffer_size) :=
  C4_write_updates smallBuf (List.replicate 5 (List.replicate 1 0))
    (by decide) (by decide) (by decide) (by decide) (by decide) (by decide)

/-- Claim C5, counterexample to the claim as stated: on the unpaused fresh
`TimeShiftBuffer(1,1,10,1)` (N = 20, ReadPosition = 0), `read(41)` does not return
41 frames: the wrapped slice assignment `output[first_part:] = buffer[:frames-first_part]`
raises a numpy broadcast error, so `frameCount` is not unrestricted. -/
theorem C5_counterexample :
    smallBuf.read 41 = none ∧ (0 : Int) ≤ 41 := by
  decide

/-- Claim C5 (amended).  `read(frameCount)` succeeds and returns exactly
`frameCount` frames whenever the state is paused, or
`ReadPosition + frameCount ≤ 2N` (in particular whenever `frameCount ≤ N`);
an unpaused read with `ReadPosition + frameCount > 2N` raises instead. -/
theorem C5_read_exact_length (s : TimeShiftBuffer) (frames : Int)
    (hN : 0 < s.buffer_size) (hr0 : 0 ≤ s.read_pos) (hrN : s.read_pos < s.buffer_size)
    (hbuf : (s.buffer.length : Int) = s.buffer_size)
    (hf : 0 ≤ frames)
    (hok : s.playback_paused = true ∨ s.read_pos + frames ≤ 2 * s.buffer_size) :
    ∃ out s', s.read frames = some (out, s') ∧ (out.length : Int) = frames := by
  unfold TimeShiftBuffer.read
  rw [if_neg (by omega)]
  by_cases hp : s.playback_paused
  · rw [if_pos hp]
    refine ⟨_, _, rfl, ?_⟩
    rw [List.length_replicate]
    omega
  · rw [if_neg hp]
    have hok2 : s.read_pos + frames ≤ 2 * s.buffer_size := by
      rcases hok with h | h
      · exact absurd h hp
      · exact h
    by_cases hwrap : s.read_pos + frames > s.buffer_size
    · rw [if_pos hwrap, if_neg (by omega)]
      refine ⟨_, _, rfl, ?_⟩
      rw [List.length_append, List.length_drop, List.length_take]
      omega
    · rw [if_neg hwrap]
      refine ⟨_, _, rfl, ?_⟩
      rw [List.length_take, List.length_drop]
      omega

/-- Witness for C5: a full-capacity read (20 = N frames) from the fresh buffer. -/
theorem C5_read_exact_length_witness :
    ∃ out s', smallBuf.read 20 = some (out, s') ∧ (out.length : Int) = 20 :=
  C5_read_exact_length smallBuf 20 (by decide) (by decide) (by decide) (by decide)
    (by decide) (Or.inr (by decide))

/-- Claim C6, counterexample to the claim as stated: write 20 frames into
`TimeShiftBuffer(1,1,10,1)` and `move_backward(8)`, reaching TimeShiftFrames = 8
with `min(StoredFrames, PastCapacityFrames) = 10`; then `move_backward(5)` followed
by `move_forward(5)` with `k = 5 ≤ 10` yields 5, not the prior 8: the backward move
was clamped at 10 and the round trip loses the difference. -/
theorem C6_counterexample :
    (smallBuf.write (List.replicate 20 (List.replicate 1 0))).map
        (fun s0 =>
          ((((s0.move_backward 8).move_backward 5).move_forward 5).time_shift,
           (s0.move_backward 8).time_shift,
           min (s0.move_backward 8).stored_frames (s0.move_backward 8).past_frames))
      = some (5, 8, 10) ∧ (5 : Int) ≤ 10 ∧ (5 : Int) ≠ 8 := by
  decide

/-- Claim C6 (amended).  `move_backward(k)` then `move_forward(k)` (no intervening
operations) restores the prior nonnegative `TimeShiftFrames` exactly, provided
`k ≥ 0` and `TimeShiftFrames + k ≤ min(StoredFrames, PastCapacityFrames)` — i.e.
the backward move is not clamped.  When it is clamped, the round trip returns
`min(StoredFrames, PastCapacityFrames) − k` instead. -/
theorem C6_back_forward_roundtrip (s : TimeShiftBuffer) (k : Int)
    (hk : 0 ≤ k) (ht : 0 ≤ s.time_shift)
    (hclamp : s.time_shift + k ≤ min s.stored_frames s.past_frames) :
    ((s.move_backward k).move_forward k).time_shift = s.time_shift := by
  obtain ⟨ht1, _, hst1, _⟩ := move_backward_fields s k
  obtain ⟨ht2, _⟩ := move_forward_fields (s.move_backward k) k
  rw [ht2, ht1]
  omega

/-- Witness for C6 at `liveBuf` (5 stored frames) with k = 3. -/
theorem C6_back_forward_roundtrip_witness :
    ((liveBuf.move_backward 3).move_forward 3).time_shift = liveBuf.time_shift :=
  C6_back_forward_roundtrip liveBuf 3 (by decide) (by decide) (by decide)

/-- Claim C7 (confirmed).  In every paused state, `read(frameCount)` (for any
nonnegative frameCount) returns `frameCount` all-zero frames and returns the state
itself unchanged: `ReadPosition`, `WritePosition`, `StoredFrames`,
`TimeShiftFrames`, `PausePosition` and the stored samples are all untouched. -/
theorem C7_paused_read_silence (s : TimeShiftBuffer) (frames : Int)
    (hp : s.playback_paused = true) (hf : 0 ≤ frames) :
    s.read frames
      = some (List.replicate frames.toNat (List.replicate s.channels.toNat 0), s) := by
  unfold TimeShiftBuffer.read
  rw [if_neg (by omega), if_pos hp]

/-- Witness for C7: `read(3)` on the paused fresh `TimeShiftBuffer(1,1,10,1)`. -/
theorem C7_paused_read_silence_witness :
    smallBuf.pause.read 3
      = some (List.replicate (3 : Int).toNat
          (List.replicate smallBuf.pause.channels.toNat 0), smallBuf.pause) :=
  C7_paused_read_silence smallBuf.pause 3 (by decide) (by decide)

/-- Claim C8, counterexample to the claim as stated: construction with the
non-positive `pastSeconds = 0` (and futureSeconds = 2, sampleRate = 10,
channelCount = 1) succeeds and silently produces a usable buffer object — no
configuration error is raised. -/
theorem C8_counterexample :
    (TimeShiftBuffer.init 0 2 10 1).isSome = true ∧ ¬ (0 < (0 : Int)) := by
  decide

/-- Claim C8 (amended).  Construction performs no parameter validation: it fails
(via the `np.zeros` allocation) exactly when the computed capacity
`(pastSeconds + futureSeconds) * sampleRate` or the channel count is negative;
every other non-positive configuration is accepted silently. -/
theorem C8_construction_failure_iff (p f sr ch : Int) :
    TimeShiftBuffer.init p f sr ch = none ↔ ((p + f) * sr < 0 ∨ ch < 0) := by
  unfold TimeShiftBuffer.init
  split <;> simp_all

/-- Claim C9 (confirmed).  In every reachable state the internal
`cumulative_shift` field equals `time_shift`, hence `get_delayed_time()` returns
exactly `TimeShiftFrames / sampleRate` (float division modelled as exact rational
division). -/
theorem C9_delayed_time {s : TimeShiftBuffer} (hr : Reachable s) :
    s.cumulative_shift = s.time_shift ∧
    s.get_delayed_time = (s.time_shift : ℚ) / (s.sample_rate : ℚ) := by
  have h := reachable_cumulative hr
  refine ⟨h, ?_⟩
  unfold TimeShiftBuffer.get_delayed_time
  rw [h]

/-- Witness for C9 at the freshly constructed `TimeShiftBuffer(1,1,10,1)`. -/
theorem C9_delayed_time_witness :
    smallBuf.cumulative_shift = smallBuf.time_shift ∧
    smallBuf.get_delayed_time
      = (smallBuf.time_shift : ℚ) / (smallBuf.sample_rate : ℚ) :=
  C9_delayed_time (Reachable.init 1 1 10 1 smallBuf (by decide))

/-- Claim C10 (confirmed).  When `resume()` is called in a state without a pause
snapshot (`PausePosition` absent), it only clears the paused flag: `ReadPosition`,
`TimeShiftFrames`, `WritePosition`, `StoredFrames` and the stored samples are
unchanged, `PlaybackPaused` becomes false, and `PausePosition` stays absent. -/
theorem C10_resume_without_snapshot (s : TimeShiftBuffer)
    (h : s.pause_position = none) :
    s.resume.read_pos = s.read_pos ∧
    s.resume.time_shift = s.time_shift ∧
    s.resume.write_pos = s.write_pos ∧
    s.resume.stored_frames = s.stored_frames ∧
    s.resume.buffer = s.buffer ∧
    s.resume.cumulative_shift = s.cumulative_shift ∧
    s.resume.playback_paused = false ∧
    s.resume.pause_position = none := by
  rw [resume_none s h]
  and_intros <;> rfl

/-- Witness for C10 at the fresh `TimeShiftBuffer(1,1,10,1)` (never paused). -/
theorem C10_resume_without_snapshot_witness :
    smallBuf.resume.read_pos = smallBuf.read_pos ∧
    smallBuf.resume.time_shift = smallBuf.time_shift ∧
    smallBuf.resume.write_pos = smallBuf.write_pos ∧
    smallBuf.resume.stored_frames = smallBuf.stored_frames ∧
    smallBuf.resume.buffer = smallBuf.buffer ∧
    smallBuf.resume.cumulative_shift = smallBuf.cumulative_shift ∧
    smallBuf.resume.playback_paused = false ∧
    smallBuf.resume.pause_position = none :=
  C10_resume_without_snapshot smallBuf (by decide)
